import Mathlib

/-!
Shallow embedding of `src/paperbush/parser.py` (the paperbush shorthand
argument compiler) and proofs about its specification claims.

Python strings are embedded as `List Char`; Python exceptions
(`PaperbushNameError`, `PaperbushSyntaxError`, and the builtin
`IndexError` raised by unguarded `list.pop()` / `list[i]`) are embedded
as the error side of `Except`.  Python's builtin `eval`, which the
source invokes for non-`$N` value expressions, is not itself embedded:
its invocation on a string `s` is recorded as the value
`Value.pyEval s`.  Because the real `eval` reads mutable global state
(the clock, imported modules, ...), the compiler is additionally
embedded parameterised by an evaluator snapshot (`EvalSnapshot`,
`evaluate_at`, `parse_argument_at`): the pure `Value.pyEval` embedding
is the instantiation at `pyEval_pure`, and properties that depend on
`eval`'s statefulness are settled against the parameterised version.
-/

deriving instance DecidableEq for Except

namespace Paperbush

/-- Python `str` is modelled as a list of characters. -/
abbrev PyStr := List Char

/-- Coerce a Lean string literal to the `PyStr` embedding. -/
def pystr (s : String) : PyStr := s.toList

/-- The exceptions the source can raise: `PaperbushNameError`,
`PaperbushSyntaxError` (message possibly empty, for the bare `raise`),
the Python builtin `IndexError`, and a fuel marker for the one
`while True` loop of the source (never returned for the fuel budget the
embedding passes, see `parse_properties_loop_fuel`). -/
inductive PBError
  | nameError (msg : PyStr)
  | syntaxError (msg : PyStr)
  | indexError
  | fuelExhausted
deriving DecidableEq, Repr

/-- `class Action(Enum)` of the source. -/
inductive Action
  | store_true
  | count
deriving DecidableEq, Repr

/-- Python runtime values appearing in the embedding: list elements of
the externally supplied `values` list, and results of evaluation.
`pyEval code` records that the source passed `code` to Python's builtin
`eval` (general-purpose evaluation, not further modelled). -/
inductive Value
  | int (n : Int)
  | str (s : PyStr)
  | pyEval (code : PyStr)
deriving DecidableEq, Repr

/-- `nargs` is `str | int | None` in the source; the non-`None` part. -/
inductive Nargs
  | int (n : Nat)
  | str (s : PyStr)
deriving DecidableEq, Repr

/-- The `Argument` slots of the source.  `short` models the stored
`_short` slot (the derived `short` property of the source is not needed
by the claims).  Python's `None` is `none`. -/
structure Argument where
  pattern : PyStr
  name : Option PyStr
  nargs : Option Nargs
  action : Option Action
  required : Option Bool
  default : Option Value
  choices : Option Value
  type_ : Option Value
  infer_short : Bool
  short : Option PyStr
deriving DecidableEq, Repr

/-- Python truthiness of a `str | None` value: `None` and `""` are falsy. -/
def truthy : Option PyStr → Bool
  | none => false
  | some s => s ≠ []

/-- `Argument.__init__` (source lines 29-54): raises
`PaperbushNameError("missing argument name")` when `not (name or short)`;
the slots not passed by `parse_name` keep their Python defaults
(`None` / `False`). -/
def Argument.init (pattern : PyStr) (name : Option PyStr) (short : Option PyStr) :
    Except PBError Argument :=
  if truthy name || truthy short then
    Except.ok { pattern := pattern, name := name, nargs := none, action := none,
                required := none, default := none, choices := none, type_ := none,
                infer_short := false, short := short }
  else
    Except.error (PBError.nameError (pystr (r"missing argument name")))

/-- `bisect(string, index)` for an integer index: `(string[:i], string[i:])`. -/
def bisect (string : PyStr) (index : Nat) : PyStr × PyStr :=
  (string.take index, string.drop index)

/-- `bisect(string, index)` for a one-character string index:
`string.index(sep)` raises `ValueError` when absent (`none` here). -/
def bisect_at (string : PyStr) (sep : Char) : Option (PyStr × PyStr) :=
  match string.findIdx? (fun ch => ch == sep) with
  | some i => some (string.take i, string.drop i)
  | none => none

/-- `string.digits` of the Python standard library. -/
def digits : PyStr := pystr (r"0123456789")

/-- `string.ascii_letters` of the Python standard library. -/
def ascii_letters : PyStr :=
  pystr (r"abcdefghijklmnopqrstuvwxyzABCDEFGHIJKLMNOPQRSTUVWXYZ")

/-- `is_int(string)`: nonempty and all characters decimal digits. -/
def is_int (string : PyStr) : Bool :=
  !string.isEmpty && string.all (fun c => digits.contains c)

/-- `int(string)` on a string of decimal digits. -/
def pyint (string : PyStr) : Nat :=
  string.foldl (fun acc c => acc * 10 + (c.toNat - 48)) 0

/-- `is_value_ref(string)`: `string[0] == "$" and is_int(string[1:])`.
Indexing `string[0]` raises `IndexError` on the empty string. -/
def is_value_ref (string : PyStr) : Except PBError Bool :=
  match string with
  | [] => Except.error PBError.indexError
  | c :: rest => Except.ok (c == '$' && is_int rest)

/-- `value_ref(string)`: `int(string[1:])`. -/
def value_ref (string : PyStr) : Nat := pyint (string.drop 1)

/-- `evaluate(string, values)`:
`values[value_ref(string)] if is_value_ref(string) else eval(string)`.
List indexing is unguarded (`IndexError` out of range); the `eval`
branch is recorded as `Value.pyEval string`.  This pure form captures
only the dispatch; the statefulness of builtin `eval` itself is
modelled by `evaluate_at` below, of which this is the `pyEval_pure`
instantiation (`evaluate_at_pure`). -/
def evaluate (string : PyStr) (values : List Value) : Except PBError Value :=
  match is_value_ref string with
  | Except.error e => Except.error e
  | Except.ok b =>
    if b then
      match values[value_ref string]? with
      | some v => Except.ok v
      | none => Except.error PBError.indexError
    else Except.ok (Value.pyEval string)

/-- `string.lstrip(chars)`: drop the leading characters in `chars`. -/
def lstrip (string : PyStr) (chars : PyStr) : PyStr :=
  string.dropWhile (fun c => chars.contains c)

/-- `stripped_len(string, chars)`: `len(string) - len(string.lstrip(chars))`. -/
def stripped_len (string : PyStr) (chars : PyStr) : Nat :=
  string.length - (lstrip string chars).length

/-- `opening = "[({"`. -/
def opening : PyStr := pystr (r"[({")

/-- `closing = "])}"`. -/
def closing : PyStr := pystr (r"])}")

/-- `pairs = dict(zip(closing, opening))`; only looked up at closing
characters in the source. -/
def pairs (c : Char) : Char :=
  if c == ']' then '[' else if c == ')' then '(' else '{'

/-- The single-quote character (written by code point to keep the file
free of quote escapes). -/
def squote : Char := Char.ofNat 39

/-- The message of the `PaperbushSyntaxError` raised for unmatching
brackets: `f"unmatching brackets: {top!r} {char!r}"` (each `!r` renders
a character between single quotes). -/
def unmatching_msg (top char : Char) : PyStr :=
  pystr (r"unmatching brackets: ") ++ [squote, top, squote, ' ', squote, char, squote]

/-- The `for char in string` loop of `are_matching_brackets`
(source lines 132-144), carrying the bracket stack and the quote state.
`stack.pop()` on an empty stack raises `IndexError`. -/
def amb_loop : PyStr → List Char → Option Char → Except PBError (List Char)
  | [], stack, _ => Except.ok stack
  | char :: rest, stack, is_string =>
    if is_string = none && (char == '"' || char == squote) then
      amb_loop rest stack (some char)
    else if is_string == some char then
      amb_loop rest stack none
    else if opening.contains char then
      amb_loop rest (char :: stack) is_string
    else if closing.contains char then
      match stack with
      | [] => Except.error PBError.indexError
      | top :: stack' =>
        if pairs char != top then
          Except.error (PBError.syntaxError (unmatching_msg top char))
        else
          amb_loop rest stack' is_string
    else
      amb_loop rest stack is_string

/-- `are_matching_brackets(string)` (source lines 124-145). -/
def are_matching_brackets (string : PyStr) : Except PBError Bool :=
  if !(string.any (fun c => (opening ++ closing).contains c)) then
    Except.ok true
  else
    match amb_loop string [] none with
    | Except.error e => Except.error e
    | Except.ok stack => Except.ok stack.isEmpty

/-- `string.split()` with no separator: split on whitespace runs,
discarding empty pieces.  The accumulator carries the current word
reversed. -/
def split_ws_aux : PyStr → PyStr → List PyStr
  | [], acc => if acc = [] then [] else [acc.reverse]
  | c :: rest, acc =>
    if c.isWhitespace then
      if acc = [] then split_ws_aux rest []
      else acc.reverse :: split_ws_aux rest []
    else split_ws_aux rest (c :: acc)

/-- `string.split()` with no separator. -/
def split_ws (string : PyStr) : List PyStr := split_ws_aux string []

/-- Join fragments with single spaces (used to state the token-multiset
property of the Fragment Splitter). -/
def space_join : List PyStr → PyStr
  | [] => []
  | [w] => w
  | w :: ws => w ++ ' ' :: space_join ws

/-- The `for f in frags` loop of `split_args` (source lines 152-162),
returning the `out` list and the final accumulator `temp`.  In the
branch where the non-empty accumulator is balanced, the source emits
the accumulator and moves on to the next word: the current word `f` is
not reprocessed. -/
def split_args_loop : List PyStr → List PyStr → PyStr → Except PBError (List PyStr × PyStr)
  | [], out, temp => Except.ok (out, temp)
  | f :: fs, out, temp =>
    if temp ≠ [] then
      match are_matching_brackets temp with
      | Except.error e => Except.error e
      | Except.ok b =>
        if b then split_args_loop fs (out ++ [temp]) []
        else split_args_loop fs out (temp ++ ' ' :: f)
    else
      match are_matching_brackets f with
      | Except.error e => Except.error e
      | Except.ok b =>
        if b then split_args_loop fs (out ++ [f]) []
        else split_args_loop fs out f

/-- `split_args(string)` (source lines 148-167).  The trailing
`for ... else` clause (always executed, the loop has no `break`) emits
a non-empty balanced accumulator and silently drops an unbalanced one. -/
def split_args (string : PyStr) : Except PBError (List PyStr) :=
  match split_args_loop (split_ws string) [] [] with
  | Except.error e => Except.error e
  | Except.ok (out, temp) =>
    if temp ≠ [] then
      match are_matching_brackets temp with
      | Except.error e => Except.error e
      | Except.ok b => if b then Except.ok (out ++ [temp]) else Except.ok out
    else Except.ok out

/-- The identifier charset of `parse_name`:
`ascii_letters + digits + "-"`. -/
def name_charset : PyStr := ascii_letters ++ digits ++ ['-']

/-- `parse_name(arg)` (source lines 207-234).  `pattern` is the whole
original fragment; the walrus `full_name_allowed := arg.startswith("|")`
is unfolded into the tuple returned by the `lh == 1` branch. -/
def parse_name (arg : PyStr) : Except PBError (Argument × PyStr) :=
  let pattern := arg
  let lh := stripped_len arg ['-']
  if arg.length = lh then
    Except.error (PBError.nameError (pystr (r"empty option name")))
  else if ¬ lh < 3 then
    Except.error (PBError.nameError (pystr (r"invalid number of leading hyphens")))
  else
    match (if lh = 1 then
             match bisect arg (stripped_len arg name_charset) with
             | (s, rest) =>
               if rest.take 1 = ['|'] then (s, rest.drop 1, true)
               else (s, rest, false)
           else (([] : PyStr), arg, true)) with
    | (short_name, arg1, full_name_allowed) =>
      match (if full_name_allowed then
               bisect arg1 (stripped_len arg1 name_charset)
             else (([] : PyStr), arg1)) with
      | (name, arg2) =>
        if short_name = [] ∧ name = [] then
          Except.error (PBError.nameError (pystr (r"empty option name")))
        else
          match Argument.init pattern (some name)
              (if short_name = [] then none else some short_name) with
          | Except.error e => Except.error e
          | Except.ok a => Except.ok (a, arg2)

/-- `parse_togglables(string)` (source lines 285-298): returns the
count flag, the `required` tri-state, and the remaining suffix.  When
`++` is stripped and something other than nothing follows, the source
falls through to the final returns with the count flag `False`. -/
def parse_togglables (string : PyStr) : Bool × Option Bool × PyStr :=
  if string.take 3 = pystr (r"++!") ∨ string.take 3 = pystr (r"!++") then
    (true, some true, string.drop 3)
  else if (pystr (r"++")).isPrefixOf string then
    let s1 := string.drop 2
    if s1 = [] then (true, none, s1)
    else if (pystr (r"!")).isPrefixOf s1 then (false, some true, s1.drop 1)
    else (false, none, s1)
  else if (pystr (r"!")).isPrefixOf string then
    (false, some true, string.drop 1)
  else
    (false, none, string)

/-- The local property state of `parse_properties`: `type_`, `nargs`,
`choices`, each `None`-able. -/
structure Props where
  type_ : Option PyStr
  nargs : Option Nargs
  choices : Option PyStr
deriving DecidableEq, Repr

/-- The all-`None` initial property state. -/
def Props.empty : Props := { type_ := none, nargs := none, choices := none }

/-- A Python value appearing in the set
`{type_, nargs, choices, None}` of the too-many-properties check. -/
inductive PySetVal
  | noneV
  | strV (s : PyStr)
  | intV (n : Nat)
deriving DecidableEq, Repr

/-- `len({type_, nargs, choices, None}) == 4`: the set has four
elements exactly when the three properties are all non-`None` and
pairwise distinct as Python values. -/
def props_set_has_four (p : Props) : Bool :=
  let a := match p.type_ with | none => PySetVal.noneV | some s => PySetVal.strV s
  let b := match p.nargs with
           | none => PySetVal.noneV
           | some (Nargs.int n) => PySetVal.intV n
           | some (Nargs.str s) => PySetVal.strV s
  let c := match p.choices with | none => PySetVal.noneV | some s => PySetVal.strV s
  a != PySetVal.noneV && b != PySetVal.noneV && c != PySetVal.noneV &&
    a != b && a != c && b != c

/-- `str.isidentifier()` restricted to ASCII (the source only feeds it
ASCII fragments): first character a letter or underscore, the rest
letters, digits or underscores. -/
def is_identifier (s : PyStr) : Bool :=
  match s with
  | [] => false
  | c :: rest =>
    (c.isAlpha || c == '_') && rest.all (fun ch => ch.isAlphanum || ch == '_')

/-- Python substring membership `prop in "?+*"`. -/
def in_qpa (prop : PyStr) : Bool := decide (prop <:+: pystr (r"?+*"))

/-- The `for sep in ":=": ... else: prop = string` block of
`parse_properties` (source lines 253-260): split at the first `:` when
the string has one, otherwise at the first `=`, otherwise the token is
the whole string (which is left unchanged). -/
def extract_prop (string : PyStr) : PyStr × PyStr :=
  match bisect_at string ':' with
  | some pr => pr
  | none =>
    match bisect_at string '=' with
    | some pr => pr
    | none => (string, string)

/-- The classification of a property token (source lines 262-267):
identifier → `type_`; integer or Python-substring of `"?+*"` → `nargs`
(integers converted); anything else → `choices`. -/
def classify (prop : PyStr) (p : Props) : Props :=
  if is_identifier prop then { p with type_ := some prop }
  else if is_int prop then { p with nargs := some (Nargs.int (pyint prop)) }
  else if in_qpa prop then { p with nargs := some (Nargs.str prop) }
  else { p with choices := some prop }

/-- The `while True` loop of `parse_properties` (source lines 244-271).
Each iteration strictly consumes input, so the fuel
`string.length + 1` passed by `parse_properties` is never exhausted
(`parse_properties_loop_fuel`). -/
def parse_properties_loop : Nat → PyStr → Props → Except PBError (PyStr × Props)
  | 0, _, _ => Except.error PBError.fuelExhausted
  | fuel + 1, string, p =>
    if string = [] then Except.ok ([], p)
    else
      match bisect string 1 with
      | (first, string1) =>
        if first = ['='] then Except.ok (string1, p)
        else if props_set_has_four p then
          Except.error (PBError.syntaxError (pystr (r"too many properties")))
        else
          match extract_prop string1 with
          | (prop, string2) =>
            let p' := classify prop p
            if prop = string2 then Except.ok ([], p')
            else parse_properties_loop fuel string2 p'

/-- The trailing `if type_ is not None` block of `parse_properties`. -/
def apply_type (p : Props) (argument : Argument) (values : List Value) :
    Except PBError Argument :=
  match p.type_ with
  | none => Except.ok argument
  | some t =>
    match evaluate t values with
    | Except.error e => Except.error e
    | Except.ok v => Except.ok { argument with type_ := some v }

/-- The trailing `if nargs is not None` block of `parse_properties`. -/
def apply_nargs (p : Props) (argument : Argument) : Argument :=
  match p.nargs with
  | none => argument
  | some n => { argument with nargs := some n }

/-- The trailing `if choices is not None` block of `parse_properties`. -/
def apply_choices (p : Props) (argument : Argument) (values : List Value) :
    Except PBError Argument :=
  match p.choices with
  | none => Except.ok argument
  | some c =>
    match evaluate c values with
    | Except.error e => Except.error e
    | Except.ok v => Except.ok { argument with choices := some v }

/-- `parse_properties(string, argument, values)` (source lines
237-282). -/
def parse_properties (string : PyStr) (argument : Argument) (values : List Value) :
    Except PBError (PyStr × Argument) :=
  match parse_properties_loop (string.length + 1) string Props.empty with
  | Except.error e => Except.error e
  | Except.ok (string', p) =>
    match apply_type p argument values with
    | Except.error e => Except.error e
    | Except.ok a1 =>
      match apply_choices p (apply_nargs p a1) values with
      | Except.error e => Except.error e
      | Except.ok a3 => Except.ok (string', a3)

/-- The result of `parse_argument`: an `Argument`, or the separator
string when the fragment is exactly `"^"` (the source returns the
input string itself). -/
inductive ArgOrSep
  | argument (a : Argument)
  | sep (s : PyStr)
deriving DecidableEq, Repr

/-- `parse_argument(string, infer_name=True, values=None)` (source
lines 170-204).  The `values = values or []` normalisation only turns
Python `None` into `[]`; the embedding takes the list directly. -/
def parse_argument (string : PyStr) (infer_name : Bool) (values : List Value) :
    Except PBError ArgOrSep :=
  if string = pystr (r"^") then Except.ok (ArgOrSep.sep string)
  else
    match parse_name string with
    | Except.error e => Except.error e
    | Except.ok (argument0, string1) =>
      let argument1 := { argument0 with infer_short := infer_name }
      match string1 with
      | [] =>
        if stripped_len (argument1.name.getD []) ['-'] ≠ 0 then
          Except.ok (ArgOrSep.argument { argument1 with action := some Action.store_true })
        else Except.ok (ArgOrSep.argument argument1)
      | c :: _ =>
        if c ∉ [':', '+', '=', '!'] then
          Except.error (PBError.syntaxError string1)
        else
          match parse_togglables string1 with
          | (count, required, string2) =>
            let argument2 := { argument1 with required := required }
            let argument3 :=
              if count then { argument2 with action := some Action.count } else argument2
            match string2 with
            | [] => Except.ok (ArgOrSep.argument argument3)
            | c2 :: _ =>
              if c2 ∉ [':', '='] then
                Except.error (PBError.syntaxError [])
              else
                match parse_properties string2 argument3 values with
                | Except.error e => Except.error e
                | Except.ok (string3, argument4) =>
                  if string3 ≠ [] then
                    match evaluate string3 values with
                    | Except.error e => Except.error e
                    | Except.ok d =>
                      Except.ok (ArgOrSep.argument { argument4 with default := some d })
                  else Except.ok (ArgOrSep.argument argument4)

/-- The behavior of Python's builtin `eval` at one moment: a snapshot
mapping each code string to the outcome of evaluating it then.  The
real `eval` reads mutable global state (the clock, imported modules,
...), so two parses of the same fragment may run against different
snapshots. -/
abbrev EvalSnapshot := PyStr → Except PBError Value

/-- The snapshot of the pure embedding: evaluation is recorded as the
opaque `Value.pyEval` tag and never raises. -/
def pyEval_pure : EvalSnapshot := fun code => Except.ok (Value.pyEval code)

/-- `evaluate` against an explicit evaluator snapshot: the `$N` branch
is the same unguarded list indexing; the `eval` branch defers to the
snapshot. -/
def evaluate_at (w : EvalSnapshot) (string : PyStr) (values : List Value) :
    Except PBError Value :=
  match is_value_ref string with
  | Except.error e => Except.error e
  | Except.ok b =>
    if b then
      match values[value_ref string]? with
      | some v => Except.ok v
      | none => Except.error PBError.indexError
    else w string

/-- `apply_type` against an explicit evaluator snapshot. -/
def apply_type_at (w : EvalSnapshot) (p : Props) (argument : Argument)
    (values : List Value) : Except PBError Argument :=
  match p.type_ with
  | none => Except.ok argument
  | some t =>
    match evaluate_at w t values with
    | Except.error e => Except.error e
    | Except.ok v => Except.ok { argument with type_ := some v }

/-- `apply_choices` against an explicit evaluator snapshot. -/
def apply_choices_at (w : EvalSnapshot) (p : Props) (argument : Argument)
    (values : List Value) : Except PBError Argument :=
  match p.choices with
  | none => Except.ok argument
  | some c =>
    match evaluate_at w c values with
    | Except.error e => Except.error e
    | Except.ok v => Except.ok { argument with choices := some v }

/-- `parse_properties` against an explicit evaluator snapshot. -/
def parse_properties_at (w : EvalSnapshot) (string : PyStr) (argument : Argument)
    (values : List Value) : Except PBError (PyStr × Argument) :=
  match parse_properties_loop (string.length + 1) string Props.empty with
  | Except.error e => Except.error e
  | Except.ok (string', p) =>
    match apply_type_at w p argument values with
    | Except.error e => Except.error e
    | Except.ok a1 =>
      match apply_choices_at w p (apply_nargs p a1) values with
      | Except.error e => Except.error e
      | Except.ok a3 => Except.ok (string', a3)

/-- `parse_argument` against an explicit evaluator snapshot: identical
to `parse_argument` except that the two `evaluate` call sites defer to
the snapshot; `parse_argument` is the instantiation at `pyEval_pure`
(`parse_argument_at_pure`). -/
def parse_argument_at (w : EvalSnapshot) (string : PyStr) (infer_name : Bool)
    (values : List Value) : Except PBError ArgOrSep :=
  if string = pystr (r"^") then Except.ok (ArgOrSep.sep string)
  else
    match parse_name string with
    | Except.error e => Except.error e
    | Except.ok (argument0, string1) =>
      let argument1 := { argument0 with infer_short := infer_name }
      match string1 with
      | [] =>
        if stripped_len (argument1.name.getD []) ['-'] ≠ 0 then
          Except.ok (ArgOrSep.argument { argument1 with action := some Action.store_true })
        else Except.ok (ArgOrSep.argument argument1)
      | c :: _ =>
        if c ∉ [':', '+', '=', '!'] then
          Except.error (PBError.syntaxError string1)
        else
          match parse_togglables string1 with
          | (count, required, string2) =>
            let argument2 := { argument1 with required := required }
            let argument3 :=
              if count then { argument2 with action := some Action.count } else argument2
            match string2 with
            | [] => Except.ok (ArgOrSep.argument argument3)
            | c2 :: _ =>
              if c2 ∉ [':', '='] then
                Except.error (PBError.syntaxError [])
              else
                match parse_properties_at w string2 argument3 values with
                | Except.error e => Except.error e
                | Except.ok (string3, argument4) =>
                  if string3 ≠ [] then
                    match evaluate_at w string3 values with
                    | Except.error e => Except.error e
                    | Except.ok d =>
                      Except.ok (ArgOrSep.argument { argument4 with default := some d })
                  else Except.ok (ArgOrSep.argument argument4)

/-- Builtin `eval` at a first moment: the stateful expression
`__import__(chr(116)+chr(105)+chr(109)+chr(101)).time()` — Python
`__import__("time").time()`, written with `chr` to stay quote-free —
returns the first clock reading, modelled as `Value.int 1`. -/
def eval_snapshot1 : EvalSnapshot := fun _code => Except.ok (Value.int 1)

/-- The same evaluator at a later moment: the clock has advanced, the
same expression now returns a different value, modelled as
`Value.int 2`. -/
def eval_snapshot2 : EvalSnapshot := fun _code => Except.ok (Value.int 2)

/-- C1: the words of `"[a b] c"` can be regrouped into the
bracket-balanced fragments `"[a b]"` and `"c"` (a regrouping that
preserves the token multiset), yet `split_args` returns only
`["[a b]"]`: the word `"c"` is discarded, so the space-joined and
re-split output does not recover the input token multiset. -/
theorem C1_fragment_splitter_drops_word :
    split_args (pystr (r"[a b] c")) = Except.ok [pystr (r"[a b]")] ∧
    are_matching_brackets (pystr (r"[a b]")) = Except.ok true ∧
    are_matching_brackets (pystr (r"c")) = Except.ok true ∧
    (split_ws (space_join [pystr (r"[a b]"), pystr (r"c")])).Perm
      (split_ws (pystr (r"[a b] c"))) ∧
    ¬ (split_ws (space_join [pystr (r"[a b]")])).Perm
      (split_ws (pystr (r"[a b] c"))) := by
  decide

/-- C2: `evaluate` hands any string that is not a `$N` back-reference to
Python's builtin `eval` (recorded as `Value.pyEval`) instead of raising:
the non-literal expression `__import__(chr(111)+chr(115))` reaches the
general-purpose evaluator.  The `$N` form is dispatched to the value
list. -/
theorem C2_evaluate_dispatches_to_general_eval :
    evaluate (pystr (r"__import__(chr(111)+chr(115))")) [] =
      Except.ok (Value.pyEval (pystr (r"__import__(chr(111)+chr(115))"))) ∧
    evaluate (pystr (r"$0")) [Value.int 3] = Except.ok (Value.int 3) := by
  decide

/-- C3 counterexample: the fragment `"x"` is consumed entirely by the
name parse and its name `"x"` has non-hyphen content, yet
`parse_argument` leaves `action` unset (the source tests the count of
leading hyphens, not the presence of non-hyphen content). -/
theorem C3_counterexample_positional_not_flag :
    parse_name (pystr (r"x")) =
      Except.ok ({ pattern := pystr (r"x"), name := some (pystr (r"x")), nargs := none,
                   action := none, required := none, default := none, choices := none,
                   type_ := none, infer_short := false, short := none }, []) ∧
    (pystr (r"x")).any (fun c => c != '-') = true ∧
    parse_argument (pystr (r"x")) true [] =
      Except.ok (ArgOrSep.argument
        { pattern := pystr (r"x"), name := some (pystr (r"x")), nargs := none,
          action := none, required := none, default := none, choices := none,
          type_ := none, infer_short := true, short := none }) := by
  decide

/-- C4: a leading `++` followed by further text loses the count flag:
`parse_togglables` consumes the two characters but returns the count
flag `false`, so `--verbosity++:int` yields no action (while the bare
`--verbosity++` does yield `count`). -/
theorem C4_count_lost_when_suffix_follows :
    parse_togglables (pystr (r"++:int")) = (false, none, pystr (r":int")) ∧
    parse_argument (pystr (r"--verbosity++:int")) true [] =
      Except.ok (ArgOrSep.argument
        { pattern := pystr (r"--verbosity++:int"), name := some (pystr (r"--verbosity")),
          nargs := none, action := none, required := none, default := none,
          choices := none, type_ := some (Value.pyEval (pystr (r"int"))),
          infer_short := true, short := none }) ∧
    parse_argument (pystr (r"--verbosity++")) true [] =
      Except.ok (ArgOrSep.argument
        { pattern := pystr (r"--verbosity++"), name := some (pystr (r"--verbosity")),
          nargs := none, action := some Action.count, required := none, default := none,
          choices := none, type_ := none, infer_short := true, short := none }) := by
  decide

/-- C5: a stray closing bracket with no prior opening bracket hits
`stack.pop()` on an empty list and raises `IndexError`, not the
`PaperbushSyntaxError` the claim requires; a mismatched pair with a
non-empty stack does raise the syntax error identifying the pair. -/
theorem C5_empty_stack_raises_index_error :
    are_matching_brackets (pystr (r"a]b")) = Except.error PBError.indexError ∧
    are_matching_brackets (pystr (r"[a)")) =
      Except.error (PBError.syntaxError (unmatching_msg '[' ')')) := by
  decide

/-- C6 counterexample: in the remainder `a=5:b` the `=` occurs before
the `:`, yet the extracted token is `a=5` (split at the first `:`),
not `a`; the full parse of `--x:a=5:b` therefore classifies `a=5` as a
choices expression. -/
theorem C6_counterexample_colon_beats_earlier_equals :
    extract_prop (pystr (r"a=5:b")) = (pystr (r"a=5"), pystr (r":b")) ∧
    parse_argument (pystr (r"--x:a=5:b")) true [] =
      Except.ok (ArgOrSep.argument
        { pattern := pystr (r"--x:a=5:b"), name := some (pystr (r"--x")), nargs := none,
          action := none, required := none, default := none,
          choices := some (Value.pyEval (pystr (r"a=5"))),
          type_ := some (Value.pyEval (pystr (r"b"))), infer_short := true,
          short := none }) := by
  decide

/-- C7 counterexample: the combined form `-x|--long` produces an
`Argument` whose `name` and `short` are both non-empty. -/
theorem C7_counterexample_both_nonempty :
    parse_name (pystr (r"-x|--long")) =
      Except.ok ({ pattern := pystr (r"-x|--long"), name := some (pystr (r"--long")),
                   nargs := none, action := none, required := none, default := none,
                   choices := none, type_ := none, infer_short := false,
                   short := some (pystr (r"-x")) }, []) ∧
    truthy (some (pystr (r"--long"))) = true ∧
    truthy (some (pystr (r"-x"))) = true := by
  decide

/-- C8 counterexample: for `-expn|--experiment-name=None` the stored
short is `-expn` — the maximal identifier-charset run from the start of
the fragment, including the leading hyphen — not the characters `expn`
after the hyphen (and the long name is stored as
`--experiment-name`, hyphens included). -/
theorem C8_counterexample_short_keeps_hyphen :
    parse_name (pystr (r"-expn|--experiment-name=None")) =
      Except.ok ({ pattern := pystr (r"-expn|--experiment-name=None"),
                   name := some (pystr (r"--experiment-name")), nargs := none,
                   action := none, required := none, default := none, choices := none,
                   type_ := none, infer_short := false,
                   short := some (pystr (r"-expn")) }, pystr (r"=None")) ∧
    (pystr (r"-expn")).take 1 = ['-'] := by
  decide

/-- Taking a prefix of the length of `takeWhile` yields `takeWhile`. -/
theorem take_takeWhile (p : Char → Bool) : ∀ l : PyStr,
    l.take (l.takeWhile p).length = l.takeWhile p
  | [] => rfl
  | c :: t => by
    by_cases h : p c
    · simp [List.takeWhile_cons, h, take_takeWhile p t]
    · simp [List.takeWhile_cons, h]

/-- Dropping a prefix of the length of `takeWhile` yields `dropWhile`. -/
theorem drop_takeWhile (p : Char → Bool) : ∀ l : PyStr,
    l.drop (l.takeWhile p).length = l.dropWhile p
  | [] => rfl
  | c :: t => by
    by_cases h : p c
    · simp [List.takeWhile_cons, List.dropWhile_cons, h, drop_takeWhile p t]
    · simp [List.takeWhile_cons, List.dropWhile_cons, h]

/-- `stripped_len` counts the leading characters drawn from `chars`. -/
theorem stripped_len_eq (s chars : PyStr) :
    stripped_len s chars = (s.takeWhile (fun c => chars.contains c)).length := by
  have h := List.takeWhile_append_dropWhile (p := fun c => chars.contains c) (l := s)
  have hlen : (s.takeWhile (fun c => chars.contains c)).length +
      (s.dropWhile (fun c => chars.contains c)).length = s.length := by
    rw [← List.length_append, h]
  simp only [stripped_len, lstrip]
  omega

/-- The prefix of length `stripped_len s chars` is the maximal run of
characters of `chars`. -/
theorem take_stripped_len (s chars : PyStr) :
    s.take (stripped_len s chars) = s.takeWhile (fun c => chars.contains c) := by
  rw [stripped_len_eq]; exact take_takeWhile _ s

/-- Dropping `stripped_len s chars` characters drops the maximal run of
characters of `chars`. -/
theorem drop_stripped_len (s chars : PyStr) :
    s.drop (stripped_len s chars) = s.dropWhile (fun c => chars.contains c) := by
  rw [stripped_len_eq]; exact drop_takeWhile _ s

/-- On a fragment with exactly one leading hyphen, `parse_name`
succeeds and stores as short name the maximal identifier-charset run
from the start of the fragment, which begins with the hyphen itself. -/
theorem parse_name_one_hyphen_short (s : PyStr) (h1 : stripped_len s ['-'] = 1)
    (h2 : s.length ≠ 1) :
    ∃ a rest, parse_name s = Except.ok (a, rest) ∧
      a.short = some (s.takeWhile (fun c => name_charset.contains c)) ∧
      (s.takeWhile (fun c => name_charset.contains c)).take 1 = ['-'] := by
  obtain ⟨t, rfl⟩ : ∃ t, s = '-' :: t := by
    cases s with
    | nil => simp [stripped_len, lstrip] at h1
    | cons c t =>
      refine ⟨t, ?_⟩
      by_cases hc : c = '-'
      · rw [hc]
      · exfalso
        have h0 : stripped_len (c :: t) ['-'] = 0 := by
          simp [stripped_len, lstrip, List.dropWhile_cons, hc]
        omega
  have htw : ('-' :: t).takeWhile (fun c => name_charset.contains c) =
      '-' :: t.takeWhile (fun c => name_charset.contains c) := by
    simp only [List.takeWhile_cons]
    rw [if_pos (by decide)]
  simp only [parse_name, bisect]
  rw [h1]
  rw [if_neg h2, if_neg (by omega), if_pos rfl,
      take_stripped_len, drop_stripped_len, htw]
  split
  · simp only [Argument.init, truthy, if_true]
    have hne2 : ('-' :: t.takeWhile (fun c => name_charset.contains c)) ≠ [] := by simp
    simp [hne2]
  · simp only [Argument.init, truthy]
    have hne2 : ('-' :: t.takeWhile (fun c => name_charset.contains c)) ≠ [] := by simp
    simp [hne2]

/-- A successful `Argument.init` copies `pattern` unchanged. -/
theorem Argument.init_pattern (p : PyStr) (name short : Option PyStr) (a : Argument)
    (h : Argument.init p name short = Except.ok a) : a.pattern = p := by
  rw [Argument.init] at h
  split at h
  · exact (Except.ok.inj h) ▸ rfl
  · exact Except.noConfusion h

/-- A successful `parse_name` stores the whole original fragment as the
`pattern` of the `Argument` it builds. -/
theorem parse_name_pattern (s : PyStr) (a : Argument) (rest : PyStr)
    (h : parse_name s = Except.ok (a, rest)) : a.pattern = s := by
  rw [parse_name] at h
  repeat' split at h
  all_goals first
    | exact Except.noConfusion h
    | (rename_i a2 heq2
       have hp := Except.ok.inj h
       have ha : a2 = a := congrArg Prod.fst hp
       exact ha ▸ Argument.init_pattern _ _ _ _ heq2)

/-- The trailing `type_` assignment of `parse_properties` never
touches `pattern`, whatever the evaluator snapshot. -/
theorem apply_type_at_pattern (w : EvalSnapshot) (p : Props) (arg : Argument)
    (values : List Value) (a : Argument)
    (h : apply_type_at w p arg values = Except.ok a) : a.pattern = arg.pattern := by
  rw [apply_type_at] at h
  repeat' split at h
  all_goals first
    | exact Except.noConfusion h
    | exact (Except.ok.inj h) ▸ rfl

/-- `apply_nargs` never touches `pattern`. -/
theorem apply_nargs_pattern (p : Props) (arg : Argument) :
    (apply_nargs p arg).pattern = arg.pattern := by
  rw [apply_nargs]
  split
  · rfl
  · rfl

/-- `apply_choices` never touches `pattern`, whatever the evaluator
snapshot. -/
theorem apply_choices_at_pattern (w : EvalSnapshot) (p : Props) (arg : Argument)
    (values : List Value) (a : Argument)
    (h : apply_choices_at w p arg values = Except.ok a) : a.pattern = arg.pattern := by
  rw [apply_choices_at] at h
  repeat' split at h
  all_goals first
    | exact Except.noConfusion h
    | exact (Except.ok.inj h) ▸ rfl

/-- A successful `parse_properties` never touches `pattern`, whatever
the evaluator snapshot. -/
theorem parse_properties_at_pattern (w : EvalSnapshot) (s : PyStr) (arg : Argument)
    (values : List Value) (s' : PyStr) (a : Argument)
    (h : parse_properties_at w s arg values = Except.ok (s', a)) : a.pattern = arg.pattern := by
  rw [parse_properties_at] at h
  repeat' split at h
  all_goals first
    | exact Except.noConfusion h
    | (rename_i a2 heq1 x2 a3v heq3
       have hp := Except.ok.inj h
       have ha : a3v = a := congrArg Prod.snd hp
       rw [← ha]
       rw [apply_choices_at_pattern _ _ _ _ _ heq3, apply_nargs_pattern,
           apply_type_at_pattern _ _ _ _ _ heq1])

/-- A successful `parse_argument` returns an `Argument` whose `pattern`
is the whole input fragment, whatever the evaluator snapshot. -/
theorem parse_argument_at_pattern (w : EvalSnapshot) (s : PyStr) (infer : Bool)
    (values : List Value) (a : Argument)
    (h : parse_argument_at w s infer values = Except.ok (ArgOrSep.argument a)) :
    a.pattern = s := by
  by_cases hsep : s = pystr (r"^")
  · rw [parse_argument_at, if_pos hsep] at h
    simp at h
  · rw [parse_argument_at, if_neg hsep] at h
    cases hpn : parse_name s with
    | error e => rw [hpn] at h; exact Except.noConfusion h
    | ok pr =>
      obtain ⟨a0, s1⟩ := pr
      rw [hpn] at h
      have hp0 : a0.pattern = s := parse_name_pattern _ _ _ hpn
      cases s1 with
      | nil =>
        dsimp only at h
        by_cases hc : stripped_len (a0.name.getD []) ['-'] ≠ 0
        · rw [if_pos hc] at h
          simp only [Except.ok.injEq, ArgOrSep.argument.injEq] at h
          subst h
          exact hp0
        · rw [if_neg hc] at h
          simp only [Except.ok.injEq, ArgOrSep.argument.injEq] at h
          subst h
          exact hp0
      | cons c r =>
        dsimp only at h
        by_cases hin : c ∉ [':', '+', '=', '!']
        · rw [if_pos hin] at h
          exact Except.noConfusion h
        · rw [if_neg hin] at h
          rcases hpt : parse_togglables (c :: r) with ⟨cnt, req, s2⟩
          rw [hpt] at h
          dsimp only at h
          by_cases hcnt : cnt = true
          all_goals first
            | simp only [if_pos hcnt] at h
            | simp only [if_neg hcnt] at h
          all_goals (
            cases s2 with
            | nil =>
              simp only [Except.ok.injEq, ArgOrSep.argument.injEq] at h
              subst h
              exact hp0
            | cons c2 r2 =>
              dsimp only at h
              by_cases hin2 : c2 ∉ [':', '=']
              · rw [if_pos hin2] at h
                exact Except.noConfusion h
              · rw [if_neg hin2] at h
                split at h
                · exact Except.noConfusion h
                · rename_i x3 s3 a4 hpe
                  have hp4 := parse_properties_at_pattern _ _ _ _ _ _ hpe
                  by_cases hs3 : s3 ≠ []
                  · rw [if_pos hs3] at h
                    cases hev : evaluate_at w s3 values with
                    | error e => rw [hev] at h; exact Except.noConfusion h
                    | ok d =>
                      rw [hev] at h
                      dsimp only at h
                      simp only [Except.ok.injEq, ArgOrSep.argument.injEq] at h
                      subst h
                      exact hp4.trans hp0
                  · rw [if_neg hs3] at h
                    simp only [Except.ok.injEq, ArgOrSep.argument.injEq] at h
                    subst h
                    exact hp4.trans hp0)

/-- A successful `bisect_at` returns a suffix no longer than the input. -/
theorem bisect_at_length (s : PyStr) (c : Char) (a b : PyStr)
    (h : bisect_at s c = some (a, b)) : b.length ≤ s.length := by
  rw [bisect_at] at h
  split at h
  · rename_i i hi
    have hb : s.drop i = b := congrArg Prod.snd (Option.some.inj h)
    rw [← hb]
    simp
  · exact Option.noConfusion h

/-- `extract_prop` returns a remainder no longer than the input. -/
theorem extract_prop_length (s : PyStr) : (extract_prop s).2.length ≤ s.length := by
  rw [extract_prop]
  split
  · rename_i pr hpr
    exact bisect_at_length s ':' pr.1 pr.2 hpr
  · split
    · rename_i pr hpr
      exact bisect_at_length s '=' pr.1 pr.2 hpr
    · simp

/-- The fuel `string.length + 1` passed by `parse_properties` is never
exhausted: every loop iteration strictly consumes input. -/
theorem parse_properties_loop_fuel : ∀ (fuel : Nat) (s : PyStr) (p : Props),
    s.length < fuel → parse_properties_loop fuel s p ≠ Except.error PBError.fuelExhausted := by
  intro fuel
  induction fuel with
  | zero => intro s p h; exact absurd h (Nat.not_lt_zero _)
  | succ n ih =>
    intro s p h
    rw [parse_properties_loop]
    split
    · simp
    · rename_i hs
      dsimp only [bisect]
      split
      · simp
      · split
        · simp
        · rcases hep : extract_prop (s.drop 1) with ⟨prop, s2⟩
          dsimp only
          split
          · simp
          · apply ih
            show s2.length < n
            have hle := extract_prop_length (s.drop 1)
            rw [hep] at hle
            dsimp only at hle
            have hlen1 : (s.drop 1).length = s.length - 1 := by simp
            have hpos : 1 ≤ s.length := by
              cases s with
              | nil => exact absurd rfl hs
              | cons x t => simp
            omega

/-- C3 (amended): for every fragment whose name parse consumes the
whole fragment, `parse_argument` sets `action = store_true` exactly
when the parsed name has at least one leading hyphen
(`stripped_len(name, "-")` nonzero); otherwise the action is left
unset. -/
theorem C3_store_true_iff_leading_hyphen (s : PyStr) (infer : Bool) (values : List Value)
    (a : Argument) (h : parse_name s = Except.ok (a, [])) :
    parse_argument s infer values =
      Except.ok (ArgOrSep.argument
        (if stripped_len (a.name.getD []) ['-'] ≠ 0 then
           { a with infer_short := infer, action := some Action.store_true }
         else { a with infer_short := infer })) := by
  have hne : s ≠ pystr (r"^") := by
    intro he
    rw [he, (by decide : parse_name (pystr (r"^")) =
      Except.error (PBError.nameError (pystr (r"empty option name"))))] at h
    exact Except.noConfusion h
  obtain ⟨pat, nm, na, ac, rq, df, ch, ty, inf, sh⟩ := a
  simp only [parse_argument, if_neg hne, h]
  split
  · rfl
  · rfl

/-- C3 witness: `--verbose` (two leading hyphens) becomes a
`store_true` flag. -/
theorem C3_store_true_iff_leading_hyphen_witness :
    parse_argument (pystr (r"--verbose")) true [] =
      Except.ok (ArgOrSep.argument
        { pattern := pystr (r"--verbose"), name := some (pystr (r"--verbose")),
          nargs := none, action := some Action.store_true, required := none,
          default := none, choices := none, type_ := none, infer_short := true,
          short := none }) := by
  rw [C3_store_true_iff_leading_hyphen (pystr (r"--verbose")) true []
      { pattern := pystr (r"--verbose"), name := some (pystr (r"--verbose")),
        nargs := none, action := none, required := none, default := none,
        choices := none, type_ := none, infer_short := false, short := none }
      (by decide)]
  decide

/-- C6 (amended): one iteration of the property loop (non-`=` head,
too-many check passing) extracts its token by splitting the remainder
at the first `:` when one exists anywhere, otherwise at the first `=`,
otherwise the token is the entire remainder and the loop ends with that
iteration. -/
theorem C6_token_split_colon_priority (fuel : Nat) (c : Char) (rest : PyStr) (p : Props)
    (h1 : c ≠ '=') (h2 : props_set_has_four p = false) :
    (∀ i, rest.findIdx? (fun ch => ch == ':') = some i →
       parse_properties_loop (fuel + 1) (c :: rest) p =
         (if rest.take i = rest.drop i then Except.ok ([], classify (rest.take i) p)
          else parse_properties_loop fuel (rest.drop i) (classify (rest.take i) p))) ∧
    (rest.findIdx? (fun ch => ch == ':') = none →
       ∀ j, rest.findIdx? (fun ch => ch == '=') = some j →
         parse_properties_loop (fuel + 1) (c :: rest) p =
           (if rest.take j = rest.drop j then Except.ok ([], classify (rest.take j) p)
            else parse_properties_loop fuel (rest.drop j) (classify (rest.take j) p))) ∧
    (rest.findIdx? (fun ch => ch == ':') = none →
       rest.findIdx? (fun ch => ch == '=') = none →
       parse_properties_loop (fuel + 1) (c :: rest) p = Except.ok ([], classify rest p)) := by
  have hstep : parse_properties_loop (fuel + 1) (c :: rest) p =
      (match extract_prop rest with
       | (prop, string2) =>
         if prop = string2 then Except.ok ([], classify prop p)
         else parse_properties_loop fuel string2 (classify prop p)) := by
    simp only [parse_properties_loop, bisect, List.take, List.drop, List.take_zero]
    rw [if_neg (by simp), if_neg (by simp [h1]), if_neg (by simp [h2])]
  refine ⟨?_, ?_, ?_⟩
  · intro i hi
    rw [hstep]
    simp only [extract_prop, bisect_at, hi]
  · intro hc j hj
    rw [hstep]
    simp only [extract_prop, bisect_at, hc, hj]
  · intro hc he
    rw [hstep]
    simp only [extract_prop, bisect_at, hc, he, if_pos rfl]
    simp

/-- C6 witness: on the suffix `:int` (no further delimiter) the token
is the whole remainder `int` and the loop ends. -/
theorem C6_token_split_colon_priority_witness :
    parse_properties_loop 4 (':' :: pystr (r"int")) Props.empty =
      Except.ok ([], classify (pystr (r"int")) Props.empty) :=
  (C6_token_split_colon_priority 3 ':' (pystr (r"int")) Props.empty (by decide)
    (by decide)).2.2 (by decide) (by decide)

/-- C7 (amended): `Argument` construction requires AT LEAST one of
name/short to be non-empty: with neither it fails with the
naming-error kind, with either it succeeds (both non-empty included,
as the combined short-and-long form produces). -/
theorem C7_at_least_one_nonempty (pattern : PyStr) (name short : Option PyStr) :
    ((truthy name || truthy short) = false →
      Argument.init pattern name short =
        Except.error (PBError.nameError (pystr (r"missing argument name")))) ∧
    ((truthy name || truthy short) = true →
      Argument.init pattern name short =
        Except.ok { pattern := pattern, name := name, nargs := none, action := none,
                    required := none, default := none, choices := none, type_ := none,
                    infer_short := false, short := short }) := by
  constructor
  · intro h
    simp [Argument.init, h]
  · intro h
    simp [Argument.init, h]

/-- C7 witness: construction with a name and no short succeeds. -/
theorem C7_at_least_one_nonempty_witness :
    Argument.init (pystr (r"x")) (some (pystr (r"x"))) none =
      Except.ok { pattern := pystr (r"x"), name := some (pystr (r"x")), nargs := none,
                  action := none, required := none, default := none, choices := none,
                  type_ := none, infer_short := false, short := none } :=
  (C7_at_least_one_nonempty (pystr (r"x")) (some (pystr (r"x"))) none).2 (by decide)

/-- C8 (amended): for every fragment with exactly one leading hyphen
that `parse_name` accepts, the stored short name is the maximal
identifier-charset run from the start of the fragment, which includes
the leading hyphen. -/
theorem C8_short_includes_hyphen (s : PyStr) (a : Argument) (rest : PyStr)
    (h0 : parse_name s = Except.ok (a, rest)) (h1 : stripped_len s ['-'] = 1) :
    a.short = some (s.takeWhile (fun c => name_charset.contains c)) ∧
    (s.takeWhile (fun c => name_charset.contains c)).take 1 = ['-'] := by
  by_cases h2 : s.length = 1
  · exfalso
    rw [parse_name] at h0
    rw [if_pos (by rw [h1, h2])] at h0
    exact Except.noConfusion h0
  · obtain ⟨a', rest', h', hs, ht⟩ := parse_name_one_hyphen_short s h1 h2
    rw [h0] at h'
    have hpair := Except.ok.inj h'
    obtain ⟨rfl, rfl⟩ := Prod.mk.injEq a rest a' rest' ▸ hpair
    exact ⟨hs, ht⟩

/-- C8 witness: at `-expn|--experiment-name=None` the stored short is
the hyphen-inclusive run `-expn`. -/
theorem C8_short_includes_hyphen_witness :
    ({ pattern := pystr (r"-expn|--experiment-name=None"),
       name := some (pystr (r"--experiment-name")), nargs := none, action := none,
       required := none, default := none, choices := none, type_ := none,
       infer_short := false, short := some (pystr (r"-expn")) } : Argument).short =
      some ((pystr (r"-expn|--experiment-name=None")).takeWhile
        (fun c => name_charset.contains c)) ∧
    ((pystr (r"-expn|--experiment-name=None")).takeWhile
        (fun c => name_charset.contains c)).take 1 = ['-'] :=
  C8_short_includes_hyphen (pystr (r"-expn|--experiment-name=None"))
    { pattern := pystr (r"-expn|--experiment-name=None"),
      name := some (pystr (r"--experiment-name")), nargs := none, action := none,
      required := none, default := none, choices := none, type_ := none,
      infer_short := false, short := some (pystr (r"-expn")) }
    (pystr (r"=None")) (by decide) (by decide)

/-- `evaluate` is `evaluate_at` at the pure snapshot. -/
theorem evaluate_at_pure (s : PyStr) (values : List Value) :
    evaluate_at pyEval_pure s values = evaluate s values := rfl

/-- `parse_argument` is `parse_argument_at` at the pure snapshot. -/
theorem parse_argument_at_pure (s : PyStr) (infer : Bool) (values : List Value) :
    parse_argument_at pyEval_pure s infer values = parse_argument s infer values := rfl

/-- Beyond its arguments, the compiler depends only on the evaluator
snapshot: re-parsing a compiled fragment's stored pattern under the
SAME snapshot (and the same infer/values settings) returns the
identical `Argument`.  The failure of the spec's idempotence claim
(C9) is therefore exactly the statefulness of builtin `eval` between
the two parses. -/
theorem reparse_same_snapshot (w : EvalSnapshot) (s : PyStr) (infer : Bool)
    (values : List Value) (a : Argument)
    (h : parse_argument_at w s infer values = Except.ok (ArgOrSep.argument a)) :
    a.pattern = s ∧ parse_argument_at w a.pattern infer values = Except.ok (ArgOrSep.argument a) := by
  have hp := parse_argument_at_pattern w s infer values a h
  exact ⟨hp, by rw [hp]; exact h⟩

/-- C9: the fragment
`x=__import__(chr(116)+chr(105)+chr(109)+chr(101)).time()` (default
expression Python `__import__("time").time()`) compiles successfully,
but its default is produced by builtin `eval`, which reads the clock:
parsed against the evaluator snapshot of a first moment the default is
the first reading, and re-parsing the stored pattern against the
snapshot of a later moment yields a different default — the re-parsed
descriptor is NOT equivalent to the original, although every field not
produced by `eval` (pattern, name, short, action, nargs, required) is
identical, and re-parsing under an unchanged snapshot returns the
identical descriptor. -/
theorem C9_stateful_eval_breaks_reparse_equivalence :
    parse_argument_at eval_snapshot1
      (pystr (r"x=__import__(chr(116)+chr(105)+chr(109)+chr(101)).time()")) true [] =
      Except.ok (ArgOrSep.argument
        { pattern := pystr (r"x=__import__(chr(116)+chr(105)+chr(109)+chr(101)).time()"),
          name := some (pystr (r"x")), nargs := none, action := none, required := none,
          default := some (Value.int 1), choices := none, type_ := none,
          infer_short := true, short := none }) ∧
    parse_argument_at eval_snapshot2
      ({ pattern := pystr (r"x=__import__(chr(116)+chr(105)+chr(109)+chr(101)).time()"),
         name := some (pystr (r"x")), nargs := none, action := none, required := none,
         default := some (Value.int 1), choices := none, type_ := none,
         infer_short := true, short := none } : Argument).pattern true [] =
      Except.ok (ArgOrSep.argument
        { pattern := pystr (r"x=__import__(chr(116)+chr(105)+chr(109)+chr(101)).time()"),
          name := some (pystr (r"x")), nargs := none, action := none, required := none,
          default := some (Value.int 2), choices := none, type_ := none,
          infer_short := true, short := none }) ∧
    ({ pattern := pystr (r"x=__import__(chr(116)+chr(105)+chr(109)+chr(101)).time()"),
       name := some (pystr (r"x")), nargs := none, action := none, required := none,
       default := some (Value.int 1), choices := none, type_ := none,
       infer_short := true, short := none } : Argument) ≠
      ({ pattern := pystr (r"x=__import__(chr(116)+chr(105)+chr(109)+chr(101)).time()"),
         name := some (pystr (r"x")), nargs := none, action := none, required := none,
         default := some (Value.int 2), choices := none, type_ := none,
         infer_short := true, short := none } : Argument) ∧
    parse_argument_at eval_snapshot1
      ({ pattern := pystr (r"x=__import__(chr(116)+chr(105)+chr(109)+chr(101)).time()"),
         name := some (pystr (r"x")), nargs := none, action := none, required := none,
         default := some (Value.int 1), choices := none, type_ := none,
         infer_short := true, short := none } : Argument).pattern true [] =
      Except.ok (ArgOrSep.argument
        { pattern := pystr (r"x=__import__(chr(116)+chr(105)+chr(109)+chr(101)).time()"),
          name := some (pystr (r"x")), nargs := none, action := none, required := none,
          default := some (Value.int 1), choices := none, type_ := none,
          infer_short := true, short := none }) := by
  decide

/-- C10: for a back-reference string accepted by `is_value_ref`,
`evaluate` returns the element of the value list at the referenced
index when in range, and raises `IndexError` otherwise (also for the
empty default list); that error kind is neither the naming-error nor
the syntax-error parse-error kind. -/
theorem C10_backref_indexing (s : PyStr) (values : List Value) (n : Nat)
    (h1 : is_value_ref s = Except.ok true) (h2 : value_ref s = n) :
    (∀ hlt : n < values.length, evaluate s values = Except.ok (values.get ⟨n, hlt⟩)) ∧
    (values.length ≤ n → evaluate s values = Except.error PBError.indexError) ∧
    (∀ m, PBError.indexError ≠ PBError.nameError m) ∧
    (∀ m, PBError.indexError ≠ PBError.syntaxError m) := by
  refine ⟨?_, ?_, by intro m; simp, by intro m; simp⟩
  · intro hlt
    simp [evaluate, h1, h2, List.getElem?_eq_getElem hlt]
  · intro hle
    simp [evaluate, h1, h2, List.getElem?_eq_none_iff.mpr hle]

/-- C10 witness: the back-reference to index 1 resolves in a
two-element list; the one to index 2 on the empty list raises
`IndexError`. -/
theorem C10_backref_indexing_witness :
    evaluate (pystr (r"$1")) [Value.int 5, Value.int 7] = Except.ok (Value.int 7) ∧
    evaluate (pystr (r"$2")) [] = Except.error PBError.indexError :=
  ⟨(C10_backref_indexing (pystr (r"$1")) [Value.int 5, Value.int 7] 1 (by decide)
      (by decide)).1 (by decide),
   (C10_backref_indexing (pystr (r"$2")) [] 2 (by decide) (by decide)).2.1 (by decide)⟩

end Paperbush
